import Mathlib

/-!
# School Network Monitor — verification of the specification against the source

Shallow embedding of the parts of the `Bitshield/school-network-monitor`
repository that the claims under study touch:

* the Angular `NotificationService` (`showApiError`, `show`) and the HTTP
  `ErrorInterceptor` (`intercept`), over a small model of JavaScript values
  with JavaScript truthiness;
* the `WebsocketService` (`getMessagesByType`, `sendPing`, `reconnect`);
* the pagination helpers `EventsComponent.totalPages` and
  `DevicesComponent.calculatePagination`;
* the selection toggles `EventsComponent.toggleEventSelection` /
  `DiscoveryComponent.toggleDeviceSelection`;
* the backend monitoring core (probe, monitor cycle, debounce threshold,
  single-active-cycle guard), which is not part of the checked-in sources:
  those definitions are modelled from the specification and are marked as such.
-/

/-! ## A model of JavaScript values

`showApiError` and the error interceptor receive untyped (`any`) values and
branch on JavaScript truthiness, `typeof`, `Array.isArray` and property
access with optional chaining.  `JVal` models the value universe those
functions inspect. -/

inductive JVal : Type where
  | jnull : JVal
  | jsUndefined : JVal
  | str : String → JVal
  | num : Int → JVal
  | boolean : Bool → JVal
  | arr : List JVal → JVal
  | obj : List (String × JVal) → JVal
deriving Repr

/-- JavaScript truthiness: `null`, `undefined`, `''`, `0` and `false` are
falsy; every array and every object (including `{}` and `[]`) is truthy. -/
def JVal.truthy : JVal → Bool
  | .jnull => false
  | .jsUndefined => false
  | .str s => s ≠ ""
  | .num n => n ≠ 0
  | .boolean b => b
  | .arr _ => true
  | .obj _ => true

/-- Property access with optional chaining (`a?.b`): reading a field of
anything that is not an object with that field yields `undefined`. -/
def JVal.getField : JVal → String → JVal
  | .obj fields, key =>
    match fields.find? (fun kv => kv.1 = key) with
    | some kv => kv.2
    | none => .jsUndefined
  | _, _ => .jsUndefined

/-- `typeof v === 'string'`. -/
def JVal.isString : JVal → Bool
  | .str _ => true
  | _ => false

/-- `Array.isArray(v)`. -/
def JVal.isArray : JVal → Bool
  | .arr _ => true
  | _ => false

/-- Plain property access `a.b` (no optional chaining): reading a property
of `null` or `undefined` throws a `TypeError` (`none`); any other base
value yields the field for objects and `undefined` otherwise (primitives
are auto-boxed and arrays have no such own property). -/
def JVal.getFieldPlain : JVal → String → Option JVal
  | .jnull, _ => none
  | .jsUndefined, _ => none
  | .obj fields, key =>
    some (match fields.find? (fun kv => kv.1 = key) with
      | some kv => kv.2
      | none => .jsUndefined)
  | _, _ => some .jsUndefined

/-- JavaScript `Array.prototype.map` with a callback that may throw:
elements are visited left to right and the first thrown `TypeError` aborts
the whole `map` call (`none`). -/
def jsMapThrow {α : Type} (f : JVal → Option α) : List JVal → Option (List α)
  | [] => some []
  | d :: ds =>
    match f d with
    | none => none
    | some b =>
      match jsMapThrow f ds with
      | none => none
      | some bs => some (b :: bs)

/-- JavaScript string coercion `String(v)` as used by `Array.prototype.join`
on the mapped elements. -/
def JVal.jToString : JVal → String
  | .jnull => "null"
  | .jsUndefined => "undefined"
  | .str s => s
  | .num n => toString n
  | .boolean b => if b then "true" else "false"
  | .arr xs => String.intercalate "," (xs.attach.map fun d => JVal.jToString d.1)
  | .obj _ => "[object Object]"
decreasing_by
  have := List.sizeOf_lt_of_mem d.2
  simp_wf
  omega

/-- `JSON.stringify`, restricted to the value shapes of `JVal` (the error
interceptor applies it to a truthy non-array object `detail`). -/
def JVal.jsonStringify : JVal → String
  | .jnull => "null"
  | .jsUndefined => "undefined"
  | .str s => "\"" ++ s ++ "\""
  | .num n => toString n
  | .boolean b => if b then "true" else "false"
  | .arr xs =>
    "[" ++ String.intercalate "," (xs.attach.map fun d => JVal.jsonStringify d.1) ++ "]"
  | .obj fields =>
    "\x7b" ++
      String.intercalate ","
        (fields.attach.map fun kv => "\"" ++ kv.1.1 ++ "\":" ++ JVal.jsonStringify kv.1.2) ++
    "\x7d"
decreasing_by
  · have := List.sizeOf_lt_of_mem d.2
    simp_wf
    omega
  · obtain ⟨⟨k, v⟩, hm⟩ := kv
    have := List.sizeOf_lt_of_mem hm
    simp only [Prod.mk.sizeOf_spec] at this
    simp_wf
    omega

/-! ## NotificationService (`src/frontend/src/app/services/notification.service.ts`) -/

/-- A toast notification as produced by `NotificationService.show`
(the `id` counter and optional `action` are not relevant to the claims). -/
structure Notification where
  type : String
  title : Option String
  message : String
  duration : Option Nat
deriving Repr, DecidableEq

namespace NotificationService

/-- `NotificationService.show(type, message, title, duration)` (named
`showNotification` here because `show` is a Lean keyword): builds and emits
exactly one notification. -/
def showNotification (type : String) (message : String) (title : Option String)
    (duration : Option Nat) : Notification :=
  { type := type, title := title, message := message, duration := duration }

/-- `NotificationService.error(message, title)` with its default duration. -/
def error (message : String) (title : Option String) : Notification :=
  showNotification "error" message title (some 5000)

/-- `NotificationService.success(message)` with its default duration. -/
def success (message : String) : Notification :=
  showNotification "success" message none (some 3000)

/-- `NotificationService.info(message)` with its default duration. -/
def info (message : String) : Notification :=
  showNotification "info" message none (some 3000)

/-- `NotificationService.warning(message, title)` with its default duration. -/
def warning (message : String) (title : Option String) : Notification :=
  showNotification "warning" message title (some 4000)

/-- The message-extraction logic of `NotificationService.showApiError`:
starts from `'An error occurred'`, then inspects `error?.error?.detail`
(string, or FastAPI-style array joined with `', '` via `d.msg || d` —
note the *plain* `d.msg` access, which throws a `TypeError` (`none`) on a
`null`/`undefined` array element), then `error?.message`, then
`typeof error === 'string'`. -/
def extractApiErrorMessage (error : JVal) : Option String :=
  let detail := (error.getField "error").getField "detail"
  if detail.truthy then
    match detail with
    | .str s => some s
    | .arr ds =>
      (jsMapThrow (fun d =>
          (d.getFieldPlain "msg").map fun m => if m.truthy then m else d) ds).map
        fun vs => String.intercalate ", " (vs.map JVal.jToString)
    | _ => some "An error occurred"
  else if (error.getField "message").truthy then
    some (error.getField "message").jToString
  else if error.isString then
    some error.jToString
  else
    some "An error occurred"

/-- `NotificationService.showApiError(error)`: when the extraction does not
throw, emits exactly one error notification titled `'Error'` whose message
is the extracted text; when the extraction throws (`none`), the exception
propagates and no notification is emitted. -/
def showApiError (err : JVal) : Option Notification :=
  (extractApiErrorMessage err).map fun message => error message (some "Error")

end NotificationService

/-! ## ErrorInterceptor (`src/frontend/src/app/interceptor/error.interceptor.ts`) -/

/-- The apostrophe character, used in the interceptor's 403 toast text. -/
def apostrophe : String := (Char.ofNat 39).toString

/-- The fields of Angular's `HttpErrorResponse` that
`ErrorInterceptor.intercept` inspects.  `error` is the (untyped) response
body; `errorIsErrorEvent` models `error.error instanceof ErrorEvent`
(a client-side error). -/
structure HttpErrorResponse where
  status : Int
  statusText : String
  error : JVal
  message : String

namespace ErrorInterceptor

/-- The `errorMessage` computed by `ErrorInterceptor.intercept`'s
`catchError` handler for a server-side error (`error.error` not an
`ErrorEvent`): `detail` as string, FastAPI array joined via
`d.msg || d.message || d` (*plain* accesses, which throw a `TypeError`
(`none`) on a `null`/`undefined` array element), object via
`JSON.stringify`; then `error.error?.message`, then `error.message`, then
a `Server Error: status - statusText` fallback. -/
def serverErrorMessage (e : HttpErrorResponse) : Option String :=
  let detail := e.error.getField "detail"
  if detail.truthy then
    match detail with
    | .str s => some s
    | .arr ds =>
      (jsMapThrow (fun d =>
          (d.getFieldPlain "msg").bind fun m =>
            if m.truthy then some m.jToString
            else
              (d.getFieldPlain "message").map fun m2 =>
                (if m2.truthy then m2 else d).jToString) ds).map
        fun parts => String.intercalate ", " parts
    | .obj fields => some (JVal.jsonStringify (.obj fields))
    | _ => some "An unknown error occurred"
  else if (e.error.getField "message").truthy then
    some (e.error.getField "message").jToString
  else if e.message ≠ "" then
    some e.message
  else
    some ("Server Error: " ++ toString e.status ++ " - " ++ e.statusText)

/-- The `errorMessage` computed by `ErrorInterceptor.intercept`:
client-side `ErrorEvent` errors are prefixed with `Error: `, server-side
errors go through `serverErrorMessage` (whose array branch may throw). -/
def interceptMessage (errorIsErrorEvent : Bool) (e : HttpErrorResponse) :
    Option String :=
  if errorIsErrorEvent then
    some ("Error: " ++ (e.error.getField "message").jToString)
  else
    serverErrorMessage e

/-- The toast notifications shown by `ErrorInterceptor.intercept`, keyed on
the HTTP status code (5xx, 404, 403, 409, 400; anything else shows no
interceptor toast); a thrown `TypeError` during message computation aborts
the handler before any toast. -/
def interceptToasts (errorIsErrorEvent : Bool) (e : HttpErrorResponse) :
    Option (List Notification) :=
  (interceptMessage errorIsErrorEvent e).map fun msg =>
    if e.status ≥ 500 then
      [NotificationService.error msg (some "Server Error")]
    else if e.status = 404 then
      [NotificationService.warning "Resource not found" (some "Not Found")]
    else if e.status = 403 then
      [NotificationService.warning
        ("You don" ++ apostrophe ++ "t have permission to perform this action")
        (some "Forbidden")]
    else if e.status = 409 then
      [NotificationService.warning msg (some "Conflict")]
    else if e.status = 400 then
      [NotificationService.warning msg (some "Invalid Request")]
    else
      []

/-- The error rethrown to the caller: `throwError(() => new Error(errorMessage))`,
a JavaScript `Error` object whose `message` property is the computed text
(when the message computation itself threw, that exception propagates
instead). -/
def interceptThrown (errorIsErrorEvent : Bool) (e : HttpErrorResponse) :
    Option JVal :=
  (interceptMessage errorIsErrorEvent e).map fun msg =>
    .obj [("message", .str msg)]

end ErrorInterceptor

/-! ## Pagination (`EventsComponent.totalPages`, `DevicesComponent.calculatePagination`) -/

/-- `Math.ceil(total / pageSize)` for natural inputs with `pageSize > 0`. -/
def ceilDiv (total pageSize : Nat) : Nat := (total + pageSize - 1) / pageSize

namespace EventsComponent

/-- `EventsComponent.totalPages`: `1` when there are no events, otherwise
`Math.max(1, Math.ceil(totalEvents / pageSize))`. -/
def totalPages (totalEvents pageSize : Nat) : Nat :=
  if totalEvents = 0 then 1 else max 1 (ceilDiv totalEvents pageSize)

/-- `EventsComponent.toggleEventSelection`: `indexOf` followed by
`splice(index, 1)` removes the first occurrence when present; otherwise
`push` appends the id. -/
def toggleEventSelection (selectedEvents : List String) (eventId : String) :
    List String :=
  if eventId ∈ selectedEvents then selectedEvents.erase eventId
  else selectedEvents ++ [eventId]

end EventsComponent

namespace DevicesComponent

/-- `DevicesComponent.calculatePagination`:
`this.totalPages = Math.ceil(this.totalDevices / this.pageSize)`
(no clamping to 1). -/
def totalPages (totalDevices pageSize : Nat) : Nat := ceilDiv totalDevices pageSize

/-- `DevicesComponent.calculatePagination`'s page list:
`Array.from({length: totalPages}, (_, i) => i + 1)` = `[1, …, totalPages]`. -/
def pages (totalDevices pageSize : Nat) : List Nat :=
  (List.range (totalPages totalDevices pageSize)).map (· + 1)

end DevicesComponent

namespace DiscoveryComponent

/-- `DiscoveryComponent.toggleDeviceSelection`: same `indexOf`/`splice`/`push`
logic as `EventsComponent.toggleEventSelection`, over device ips. -/
def toggleDeviceSelection (selectedDevices : List String) (ip : String) :
    List String :=
  if ip ∈ selectedDevices then selectedDevices.erase ip
  else selectedDevices ++ [ip]

end DiscoveryComponent

/-- Modelled from the spec: the backend list endpoints' pagination
(`page` 1-indexed, `page_size` items per page) is not among the checked-in
sources; §8 specifies "requesting page 2 of page_size 20 over 45 devices
returns devices 21-40", i.e. the page slice skips `(page-1)*page_size`
items and takes `page_size`. -/
def paginate {α : Type} (items : List α) (page pageSize : Nat) : List α :=
  (items.drop ((page - 1) * pageSize)).take pageSize

/-! ## WebsocketService (`src/unnamed/part_005`) -/

/-- The push-channel message envelope
(`WebSocketMessage`: `type`, `data`, optional `timestamp`). -/
structure WSMessage where
  type : String
  data : JVal
  timestamp : Option String

namespace WebsocketService

/-- `WebsocketService.getMessagesByType(type)`: the per-message observer —
for each message of the stream, in order, emit `message.data` exactly when
`message.type === type`. -/
def getMessagesByType (type : String) : List WSMessage → List JVal
  | [] => []
  | m :: ms =>
    if m.type = type then m.data :: getMessagesByType type ms
    else getMessagesByType type ms

/-- `WebsocketService.sendPing()`: sends the envelope
`{type: 'PING', data: {timestamp: <now>}}`. -/
def sendPing (now : String) : WSMessage :=
  { type := "PING", data := .obj [("timestamp", .str now)], timestamp := none }

/-- `environment.websocket.reconnectInterval` (5000 ms). -/
def reconnectInterval : ℚ := 5000

/-- `environment.websocket.maxReconnectAttempts`. -/
def maxReconnectAttempts : Nat := 10

/-- The delay computed by `WebsocketService.reconnect` for the `n`-th
reconnection attempt (`n ≥ 1`):
`this.reconnectInterval * Math.pow(1.5, this.reconnectAttempts - 1)`,
evaluated after the counter was incremented to `n`. -/
def reconnectDelay (n : Nat) : ℚ := reconnectInterval * (3 / 2) ^ (n - 1)

/-- The `ConnectionStatus` enum of the service. -/
inductive ConnectionStatus where
  | connected
  | disconnected
  | connecting
  | reconnecting
  | error
deriving Repr, DecidableEq

/-- The service state that the reconnect logic reads and writes. -/
structure WSState where
  reconnectAttempts : Nat
  status : ConnectionStatus
  isManualDisconnect : Bool
deriving Repr, DecidableEq

/-- `WebsocketService.reconnect()`: when the attempt counter has reached
`maxReconnectAttempts` the status becomes `ERROR` and no connect is
scheduled; otherwise the counter is incremented to `n`, the status becomes
`RECONNECTING`, and one `connect()` is scheduled after `reconnectDelay n`.
The second component is the scheduled delay (`none` = no attempt). -/
def reconnect (s : WSState) : WSState × Option ℚ :=
  if s.reconnectAttempts ≥ maxReconnectAttempts then
    ({ s with status := .error }, none)
  else
    let n := s.reconnectAttempts + 1
    ({ s with reconnectAttempts := n, status := .reconnecting },
     some (reconnectDelay n))

/-- The `closeObserver` of `WebsocketService.connect()`: on a closed
connection the status becomes `DISCONNECTED`, and unless the disconnect was
manual, `reconnect()` runs. -/
def onClose (s : WSState) : WSState × Option ℚ :=
  let s1 := { s with status := ConnectionStatus.disconnected }
  if s1.isManualDisconnect then (s1, none) else reconnect s1

/-- A run of `k` successive unexpected connection failures (each failed or
dropped connection fires the close observer); collects the delays of the
scheduled reconnection attempts in order. -/
def runFailures : WSState → Nat → WSState × List ℚ
  | s, 0 => (s, [])
  | s, k + 1 =>
    let r1 := onClose s
    let r2 := runFailures r1.1 k
    (r2.1, r1.2.toList ++ r2.2)

/-- The state right after a successful `openObserver`:
`reconnectAttempts = 0`, connected, not a manual disconnect. -/
def connectedState : WSState :=
  { reconnectAttempts := 0, status := .connected, isManualDisconnect := false }

end WebsocketService

/-! ## The backend monitoring core (modelled from the spec)

The repository's backend (the FastAPI monitoring service accessed through
`/api/v1/monitoring/run-cycle`, `/api/v1/devices/{id}/ping`, …) is not among
the checked-in sources — only its frontend callers and its API documentation
are.  The definitions below are therefore modelled from the specification
and marked as such. -/

/-- Device/Link status (§3). -/
inductive Status where
  | up
  | down
  | unknown
deriving Repr, DecidableEq

/-- An Event record as far as the claims are concerned: which target it is
about and its event type (e.g. `DEVICE_DOWN`, `DEVICE_UP`). -/
structure MEvent where
  targetId : String
  eventType : String
deriving Repr, DecidableEq

/-- A monitored target of the registry with its last-known status (§3). -/
structure Target where
  id : String
  status : Status
deriving Repr, DecidableEq

/-- The Event appended for a detected transition of a target to `newStatus`. -/
def transitionEvent (t : Target) (newStatus : Status) : MEvent :=
  { targetId := t.id,
    eventType := if newStatus = .down then "DEVICE_DOWN" else "DEVICE_UP" }

/-- Modelled from the spec: the backend Monitor Cycle's Diffing/Persisting
phase (§2, §4.2, §4.3) is not among the checked-in sources.  Per §4.3 "on
each detected transition, Monitor Cycle appends one Event", and per the §3
invariant an unchanged status on a repeated probe appends none; the cycle
walks the registry, writes each target's probed status back, and appends
events for the changed targets only. -/
def monitorCycle : List Target → (String → Status) → List Target × List MEvent
  | [], _ => ([], [])
  | t :: ts, probed =>
    let newStatus := probed t.id
    let rest := monitorCycle ts probed
    if newStatus = t.status then
      ({ t with status := newStatus } :: rest.1, rest.2)
    else
      ({ t with status := newStatus } :: rest.1,
       transitionEvent t newStatus :: rest.2)

/-- A monitored target with the §4.2 debounce bookkeeping: configured
consecutive-failure threshold and current consecutive-failure count. -/
structure MonTarget where
  ip : String
  status : Status
  threshold : Nat
  consecutiveFailures : Nat
deriving Repr, DecidableEq

/-- Modelled from the spec: the backend per-target debounce logic (§4.2) is
not among the checked-in sources.  "A target unreachable after configured
consecutive-failure threshold transitions DOWN; first successful probe
after DOWN transitions UP; single dropped probes must not flip status."
One probe result is folded into the target's state; the second component
is the list of Events appended (one per transition, §4.3). -/
def processProbe (t : MonTarget) (ok : Bool) : MonTarget × List MEvent :=
  if ok then
    ({ t with status := .up, consecutiveFailures := 0 },
     if t.status = .down then [{ targetId := t.ip, eventType := "DEVICE_UP" }]
     else [])
  else
    let f := t.consecutiveFailures + 1
    if t.threshold ≤ f ∧ t.status ≠ .down then
      ({ t with status := .down, consecutiveFailures := f },
       [{ targetId := t.ip, eventType := "DEVICE_DOWN" }])
    else
      ({ t with consecutiveFailures := f }, [])

/-- Folding a sequence of probe results into a target, collecting the
appended Events in order. -/
def runProbes : MonTarget → List Bool → MonTarget × List MEvent
  | t, [] => (t, [])
  | t, r :: rs =>
    let p := processProbe t r
    let rest := runProbes p.1 rs
    (rest.1, p.2 ++ rest.2)

/-- Trigger/finish events for the Monitor Cycle driver (timer tick or
manual `run-cycle` API call; a cycle finishing). -/
inductive CycleEvent where
  | trigger
  | finish
deriving Repr, DecidableEq

/-- Modelled from the spec: the backend cycle driver (§5) is not among the
checked-in sources.  "Only one Monitor Cycle may be active at a time — a new
trigger while one is running must be coalesced or rejected, not run
concurrently."  The state is the number of active cycles; a trigger while a
cycle is active is rejected/coalesced (starts nothing), a trigger while idle
starts one cycle, and a finish retires the running cycle. -/
def cycleStep (active : Nat) : CycleEvent → Nat
  | .trigger => if 1 ≤ active then active else active + 1
  | .finish => active - 1

/-- The number of active cycles after a trace of trigger/finish events,
starting from the idle system. -/
def activeCycles (trace : List CycleEvent) : Nat :=
  trace.foldl cycleStep 0

/-- The network-level outcome of one reachability measurement. -/
inductive NetOutcome where
  | reachable (latencyMs : ℚ)
  | timeout
  | unreachable
deriving Repr, DecidableEq

/-- §4.1: error classification of a failed probe. -/
inductive ProbeError where
  | timeout
  | unreachable
  | protocolError
deriving Repr, DecidableEq

/-- The probe/ping result shape consumed by the frontend
(`is_alive`, `response_time_ms`), §4.1's "reachable boolean, latency (if
reachable), error classification otherwise". -/
structure ProbeResult where
  is_alive : Bool
  response_time_ms : Option ℚ
  errorClass : Option ProbeError
deriving Repr, DecidableEq

/-- What an operation delivers to its subscriber: the success path
(`next:`) with a result, or the error path (`error:`) with a server error. -/
inductive ProbeOutcome where
  | success (r : ProbeResult)
  | serverError (message : String)
deriving Repr

/-- `true` exactly when the network outcome is an ordinary failure. -/
def netFails : NetOutcome → Bool
  | .reachable _ => false
  | .timeout => true
  | .unreachable => true

/-- Modelled from the spec: the backend probe (§4.1, §7) is not among the
checked-in sources.  "Must not raise for ordinary network failure — failure
is a normal result variant, not an exception"; "probe failures are expected
and recorded as status data, never surfaced as server errors".  An ordinary
network failure (timeout, unreachable) becomes a success-path result with
`is_alive = false` and an error classification. -/
def probe : NetOutcome → ProbeOutcome
  | .reachable l => .success { is_alive := true, response_time_ms := some l, errorClass := none }
  | .timeout => .success { is_alive := false, response_time_ms := none, errorClass := some .timeout }
  | .unreachable => .success { is_alive := false, response_time_ms := none, errorClass := some .unreachable }

namespace DeviceDetailComponent

/-- The `next:` handler of `DeviceDetailComponent.pingDevice`'s subscription
(`src/unnamed/part_002`): builds the UP/DOWN message from the result and
shows a success toast when alive, an error toast when not
(`DevicesComponent.pingDevice` in `src/unnamed/part_004` does the same). -/
def pingResultNotification (r : ProbeResult) : Notification :=
  let rtText :=
    match r.response_time_ms with
    | some q => toString q
    | none => "null"
  if r.is_alive then
    NotificationService.success ("Device is UP (" ++ rtText ++ "ms)")
  else
    NotificationService.error "Device is DOWN" none

/-- The subscription dispatch of `pingDevice`: a success-path outcome goes
to the `next:` handler (always one notification), an error-path outcome to
`NotificationService.showApiError`. -/
def pingSubscription : ProbeOutcome → Option Notification
  | .success r => some (pingResultNotification r)
  | .serverError m => NotificationService.showApiError (.str m)

end DeviceDetailComponent

/-! ## Theorems -/

/-- Helper: one cycle-driver step keeps the active-cycle count at most 1. -/
theorem cycleStep_le_one (a : Nat) (h : a ≤ 1) (e : CycleEvent) : cycleStep a e ≤ 1 := by
  cases e with
  | trigger =>
    simp only [cycleStep]
    split <;> omega
  | finish =>
    simp only [cycleStep]
    omega

/-- Helper: folding the cycle driver over any trace preserves the bound. -/
theorem foldl_cycleStep_le_one (trace : List CycleEvent) :
    ∀ a : Nat, a ≤ 1 → trace.foldl cycleStep a ≤ 1 := by
  induction trace with
  | nil => intro a h; simpa using h
  | cons e tr ih =>
    intro a h
    simpa [List.foldl_cons] using ih (cycleStep a e) (cycleStep_le_one a h e)

/-- C3: for every trace of trigger/finish events (timer or manual `run-cycle`
calls), at most one Monitor Cycle is active at any time, and a trigger that
arrives while a cycle is running starts no new cycle (it is
rejected/coalesced). -/
theorem monitor_single_active_cycle (trace : List CycleEvent) :
    activeCycles trace ≤ 1 ∧ cycleStep 1 CycleEvent.trigger = 1 := by
  refine ⟨foldl_cycleStep_le_one trace 0 (by omega), rfl⟩

/-- C4: for every network outcome, the probe returns on the success path —
an ordinary network failure (timeout, unreachable) becomes a normal result
with `is_alive = false` and an error classification, never a server error —
and the frontend `pingDevice` subscription receives it in its `next:`
handler. -/
theorem probe_failure_is_normal_result (net : NetOutcome) :
    ∃ r : ProbeResult,
      probe net = ProbeOutcome.success r ∧
      r.is_alive = !netFails net ∧
      r.errorClass.isSome = netFails net ∧
      DeviceDetailComponent.pingSubscription (probe net) =
        some (DeviceDetailComponent.pingResultNotification r) := by
  cases net <;> exact ⟨_, rfl, rfl, rfl, rfl⟩

/-- C6: the type-filtered stream `getMessagesByType(t)` emits exactly the
`data` payloads of the messages whose `type` equals `t`, in the original
order (it equals the filter-then-project of the message sequence), and a
client PING control message is the envelope `{type: 'PING',
data: {timestamp}}`. -/
theorem websocket_type_filter (t now : String) (msgs : List WSMessage) :
    WebsocketService.getMessagesByType t msgs =
      (msgs.filter fun m => decide (m.type = t)).map WSMessage.data ∧
    (WebsocketService.sendPing now).type = "PING" ∧
    (WebsocketService.sendPing now).data = JVal.obj [("timestamp", JVal.str now)] := by
  refine ⟨?_, rfl, rfl⟩
  induction msgs with
  | nil => rfl
  | cons m ms ih =>
    by_cases h : m.type = t <;>
      simp [WebsocketService.getMessagesByType, h, ih]

/-- C8 counterexample: the claim's "page count at least 1" fails on
`DevicesComponent.calculatePagination` — for an empty collection
(`totalDevices = 0`, `page_size = 20`) it derives `Math.ceil(0/20) = 0`
pages and an empty page list, not at least 1. -/
theorem pagination_empty_collection_zero_pages :
    DevicesComponent.totalPages 0 20 = 0 ∧
    ¬ 1 ≤ DevicesComponent.totalPages 0 20 ∧
    DevicesComponent.pages 0 20 = [] := by
  refine ⟨rfl, by decide, rfl⟩

/-- C8 (amended): page 2 with page size 20 over 45 devices is exactly the
devices at positions 21 through 40; the derived page count for total 45 and
page size 20 is 3 in both `EventsComponent.totalPages` and
`DevicesComponent.calculatePagination`; `EventsComponent.totalPages` is
always at least 1 (pages numbered from 1), while
`DevicesComponent.calculatePagination` is not clamped and yields 0 for an
empty collection. -/
theorem pagination_page2_of_45 :
    paginate (List.range' 1 45) 2 20 = List.range' 21 20 ∧
    EventsComponent.totalPages 45 20 = 3 ∧
    DevicesComponent.totalPages 45 20 = 3 ∧
    (∀ total pageSize : Nat, 1 ≤ EventsComponent.totalPages total pageSize) := by
  refine ⟨by decide, by decide, by decide, ?_⟩
  intro total pageSize
  unfold EventsComponent.totalPages
  split
  · omega
  · exact le_max_left 1 _

/-- Helper: a throwing map over a list none of whose elements throws
succeeds. -/
theorem jsMapThrow_isSome {α : Type} (f : JVal → Option α) :
    ∀ l : List JVal, (∀ d ∈ l, (f d).isSome = true) →
      ∃ bs : List α, jsMapThrow f l = some bs := by
  intro l
  induction l with
  | nil => intro _; exact ⟨[], rfl⟩
  | cons x xs ih =>
    intro hall
    obtain ⟨b, hb⟩ := Option.isSome_iff_exists.mp (hall x (List.mem_cons_self x xs))
    obtain ⟨bs, hbs⟩ := ih fun d hd => hall d (List.mem_cons_of_mem x hd)
    exact ⟨b :: bs, by simp [jsMapThrow, hb, hbs]⟩

/-- C9 counterexample: `showApiError` is neither total nor always non-empty
— the empty string input takes the `typeof error === 'string'` branch and
emits the empty message, a FastAPI-style empty `detail` array is truthy in
JavaScript and joins to the empty message, and a `detail` array containing
`null` makes the map callback's plain `d.msg` access throw a `TypeError`,
so no notification is emitted at all. -/
theorem show_api_error_empty_message :
    (NotificationService.showApiError (JVal.str "")).map Notification.message =
      some "" ∧
    (NotificationService.showApiError
      (JVal.obj [("error", JVal.obj [("detail", JVal.arr [])])])).map
        Notification.message = some "" ∧
    NotificationService.showApiError
      (JVal.obj [("error", JVal.obj [("detail", JVal.arr [JVal.jnull])])]) =
        none := by
  refine ⟨?_, ?_, rfl⟩ <;>
      simp [NotificationService.showApiError, NotificationService.error,
        NotificationService.showNotification, NotificationService.extractApiErrorMessage,
        JVal.getField, JVal.truthy, JVal.isString, JVal.jToString, List.find?,
        jsMapThrow]
  rfl

/-- C9 (amended): on every input whose `detail`, if a FastAPI-style array,
contains no `null`/`undefined` element (so the plain `d.msg` access of the
map callback cannot throw), `showApiError` emits exactly one notification
of type `'error'` titled `'Error'`, falling back to `'An error occurred'`
whenever no detail or message can be extracted (no truthy
`error?.error?.detail`, no truthy `error?.message`, input not a string);
the emitted message can still be empty (empty-string input, or a detail
array joining to the empty string), and on a `detail` array with a
`null`/`undefined` element the `TypeError` propagates and no notification
is emitted. -/
theorem show_api_error_total (e : JVal)
    (h : ∀ ds : List JVal, (e.getField "error").getField "detail" = JVal.arr ds →
      ∀ d ∈ ds, (d.getFieldPlain "msg").isSome = true) :
    (∃ n : Notification, NotificationService.showApiError e = some n ∧
      n.type = "error" ∧ n.title = some "Error") ∧
    ((((e.getField "error").getField "detail").truthy = false ∧
      (e.getField "message").truthy = false ∧
      e.isString = false) →
      (NotificationService.showApiError e).map Notification.message =
        some "An error occurred") := by
  have hex : ∃ s : String, NotificationService.extractApiErrorMessage e = some s := by
    simp only [NotificationService.extractApiErrorMessage]
    cases hdd : (e.getField "error").getField "detail" with
    | arr ds =>
      split
      · obtain ⟨bs, hbs⟩ := jsMapThrow_isSome
          (fun d => (d.getFieldPlain "msg").map fun m => if m.truthy then m else d)
          ds (fun d hd => by simpa using h ds hdd d hd)
        exact ⟨", ".intercalate (bs.map JVal.jToString), by simp [hbs]⟩
      · split
        · exact ⟨_, rfl⟩
        · split
          · exact ⟨_, rfl⟩
          · exact ⟨_, rfl⟩
    | jnull =>
      split
      · exact ⟨_, rfl⟩
      · split
        · exact ⟨_, rfl⟩
        · split
          · exact ⟨_, rfl⟩
          · exact ⟨_, rfl⟩
    | jsUndefined =>
      split
      · exact ⟨_, rfl⟩
      · split
        · exact ⟨_, rfl⟩
        · split
          · exact ⟨_, rfl⟩
          · exact ⟨_, rfl⟩
    | str s =>
      split
      · exact ⟨_, rfl⟩
      · split
        · exact ⟨_, rfl⟩
        · split
          · exact ⟨_, rfl⟩
          · exact ⟨_, rfl⟩
    | num n =>
      split
      · exact ⟨_, rfl⟩
      · split
        · exact ⟨_, rfl⟩
        · split
          · exact ⟨_, rfl⟩
          · exact ⟨_, rfl⟩
    | boolean b =>
      split
      · exact ⟨_, rfl⟩
      · split
        · exact ⟨_, rfl⟩
        · split
          · exact ⟨_, rfl⟩
          · exact ⟨_, rfl⟩
    | obj fields =>
      split
      · exact ⟨_, rfl⟩
      · split
        · exact ⟨_, rfl⟩
        · split
          · exact ⟨_, rfl⟩
          · exact ⟨_, rfl⟩
  obtain ⟨s, hs⟩ := hex
  refine ⟨⟨NotificationService.error s (some "Error"), ?_, rfl, rfl⟩, ?_⟩
  · simp [NotificationService.showApiError, hs]
  · rintro ⟨h1, h2, h3⟩
    have hmsg : NotificationService.extractApiErrorMessage e =
        some "An error occurred" := by
      simp [NotificationService.extractApiErrorMessage, h1, h2, h3]
    simp [NotificationService.showApiError, NotificationService.error,
      NotificationService.showNotification, hmsg]

/-- C9 witness: the amended theorem at the concrete input `null` (its
`detail` access yields `undefined`, so the no-throw hypothesis holds
vacuously and the fallback branches fire). -/
theorem show_api_error_total_witness :
    (∃ n : Notification, NotificationService.showApiError JVal.jnull = some n ∧
      n.type = "error" ∧ n.title = some "Error") ∧
    (NotificationService.showApiError JVal.jnull).map Notification.message =
      some "An error occurred" :=
  ⟨(show_api_error_total JVal.jnull (fun ds hds => nomatch hds)).1,
   (show_api_error_total JVal.jnull (fun ds hds => nomatch hds)).2 ⟨rfl, rfl, rfl⟩⟩

/-- Helper: a single toggle preserves freedom from duplicates. -/
theorem toggle_preserves_nodup (l : List String) (id : String) (h : l.Nodup) :
    (EventsComponent.toggleEventSelection l id).Nodup := by
  unfold EventsComponent.toggleEventSelection
  by_cases hm : id ∈ l
  · simp only [hm, if_true]
    exact h.erase id
  · simp only [hm, if_false]
    simp [List.nodup_append, h, hm]

/-- Helper: any sequence of toggles preserves freedom from duplicates. -/
theorem toggles_preserve_nodup (ids : List String) :
    ∀ l : List String, l.Nodup →
      (ids.foldl EventsComponent.toggleEventSelection l).Nodup := by
  induction ids with
  | nil => intro l h; simpa using h
  | cons i is ih =>
    intro l h
    simpa [List.foldl_cons] using ih _ (toggle_preserves_nodup l i h)

/-- C10 counterexample: on a selection that already holds the id twice,
toggling the same id twice does not return the original contents —
`["a","a"]` becomes `["a"]` and then `[]`, which is not even a permutation
of the original. -/
theorem toggle_double_not_involutive_on_duplicates :
    EventsComponent.toggleEventSelection
      (EventsComponent.toggleEventSelection ["a", "a"] "a") "a" = [] ∧
    ¬ List.Perm ([] : List String) ["a", "a"] := by
  refine ⟨rfl, by decide⟩

/-- C10 (amended): for every selection list in which the id occurs at most
once (in particular every duplicate-free selection), toggling the same id
twice returns the selection to its original contents (the same multiset;
exactly the original list when the id was absent); a single application
appends the id when absent and removes its first occurrence when present;
`DiscoveryComponent.toggleDeviceSelection` is the same operation; and a
duplicate-free selection stays duplicate-free under every sequence of
toggles. -/
theorem toggle_selection_involution (l : List String) (id : String)
    (h : l.count id ≤ 1) :
    List.Perm (EventsComponent.toggleEventSelection
        (EventsComponent.toggleEventSelection l id) id) l ∧
    (id ∉ l → EventsComponent.toggleEventSelection l id = l ++ [id]) ∧
    (id ∈ l → EventsComponent.toggleEventSelection l id = l.erase id) ∧
    (∀ m : List String, ∀ i : String,
      DiscoveryComponent.toggleDeviceSelection m i =
        EventsComponent.toggleEventSelection m i) ∧
    (∀ ids : List String, l.Nodup →
      (ids.foldl EventsComponent.toggleEventSelection l).Nodup) := by
  refine ⟨?_, ?_, ?_, fun m i => rfl, fun ids hnd => toggles_preserve_nodup ids l hnd⟩
  · by_cases hm : id ∈ l
    · have h1 : EventsComponent.toggleEventSelection l id = l.erase id := by
        simp [EventsComponent.toggleEventSelection, hm]
      have hnotmem : id ∉ l.erase id := by
        have hc : (l.erase id).count id = l.count id - 1 := List.count_erase_self id l
        have : (l.erase id).count id = 0 := by omega
        exact (List.count_eq_zero.mp this)
      have h2 : EventsComponent.toggleEventSelection (l.erase id) id = l.erase id ++ [id] := by
        simp [EventsComponent.toggleEventSelection, hnotmem]
      rw [h1, h2]
      exact (List.perm_append_singleton id (l.erase id)).trans
        (List.perm_cons_erase hm).symm
    · have h1 : EventsComponent.toggleEventSelection l id = l ++ [id] := by
        simp [EventsComponent.toggleEventSelection, hm]
      have hmem : id ∈ l ++ [id] := by simp
      have h2 : EventsComponent.toggleEventSelection (l ++ [id]) id = (l ++ [id]).erase id := by
        simp [EventsComponent.toggleEventSelection, hmem]
      have h3 : (l ++ [id]).erase id = l := by
        rw [List.erase_append_right _ hm]
        simp [List.erase_cons_head]
      rw [h1, h2, h3]
  · intro hm
    simp [EventsComponent.toggleEventSelection, hm]
  · intro hm
    simp [EventsComponent.toggleEventSelection, hm]

/-- C10 witness: the amended theorem at the concrete duplicate-free
selection `["a", "b"]` with id `"a"`. -/
theorem toggle_selection_involution_witness :
    List.Perm (EventsComponent.toggleEventSelection
        (EventsComponent.toggleEventSelection ["a", "b"] "a") "a") ["a", "b"] :=
  (toggle_selection_involution ["a", "b"] "a" (by decide)).1

/-- C5: for every server-side CRUD error response carrying a textual
(non-empty string) `detail`, the interceptor's computed message is exactly
that detail, the error rethrown to the caller carries it unmodified as its
`message`, and `showApiError` applied to the propagated error displays that
same detail text as an error toast. -/
theorem crud_error_detail_propagated (e : HttpErrorResponse) (d : String)
    (hd : e.error.getField "detail" = .str d) (hne : d ≠ "") :
    ErrorInterceptor.interceptMessage false e = some d ∧
    ErrorInterceptor.interceptThrown false e =
      some (JVal.obj [("message", JVal.str d)]) ∧
    (ErrorInterceptor.interceptThrown false e).bind
        NotificationService.showApiError =
      some (NotificationService.error d (some "Error")) ∧
    ((ErrorInterceptor.interceptThrown false e).bind
        NotificationService.showApiError).map Notification.message = some d ∧
    ((ErrorInterceptor.interceptThrown false e).bind
        NotificationService.showApiError).map Notification.type = some "error" := by
  have hmsg : ErrorInterceptor.interceptMessage false e = some d := by
    simp [ErrorInterceptor.interceptMessage, ErrorInterceptor.serverErrorMessage,
      hd, JVal.truthy, hne]
  have hthrown : ErrorInterceptor.interceptThrown false e =
      some (JVal.obj [("message", JVal.str d)]) := by
    simp [ErrorInterceptor.interceptThrown, hmsg]
  have hshow : NotificationService.showApiError (JVal.obj [("message", JVal.str d)]) =
      some (NotificationService.error d (some "Error")) := by
    simp [NotificationService.showApiError, NotificationService.extractApiErrorMessage,
      JVal.getField, List.find?, JVal.truthy, JVal.jToString, hne]
  have hbind : (ErrorInterceptor.interceptThrown false e).bind
      NotificationService.showApiError =
        some (NotificationService.error d (some "Error")) := by
    rw [hthrown, Option.some_bind, hshow]
  exact ⟨hmsg, hthrown, hbind, by rw [hbind]; rfl, by rw [hbind]; rfl⟩

/-- C5 witness: a concrete 404 CRUD error with detail `Device not found`. -/
theorem crud_error_detail_propagated_witness :
    ErrorInterceptor.interceptMessage false
      { status := 404, statusText := "Not Found",
        error := JVal.obj [("detail", JVal.str "Device not found")],
        message := "Http failure response" } = some "Device not found" ∧
    ((ErrorInterceptor.interceptThrown false
        { status := 404, statusText := "Not Found",
          error := JVal.obj [("detail", JVal.str "Device not found")],
          message := "Http failure response" }).bind
      NotificationService.showApiError).map Notification.message =
        some "Device not found" :=
  ⟨(crud_error_detail_propagated
      { status := 404, statusText := "Not Found",
        error := JVal.obj [("detail", JVal.str "Device not found")],
        message := "Http failure response" } "Device not found" rfl (by decide)).1,
   (crud_error_detail_propagated
      { status := 404, statusText := "Not Found",
        error := JVal.obj [("detail", JVal.str "Device not found")],
        message := "Http failure response" } "Device not found" rfl (by decide)).2.2.2.1⟩

/-- Helper: a filter over a list none of whose elements satisfies the
predicate is empty. -/
theorem filter_eq_nil_of_none (p : MEvent → Bool) :
    ∀ l : List MEvent, (∀ a ∈ l, p a = false) → l.filter p = [] := by
  intro l
  induction l with
  | nil => intro _; rfl
  | cons x xs ih =>
    intro h
    have hx := h x (List.mem_cons_self x xs)
    rw [List.filter_cons, hx]
    simp only [Bool.false_eq_true, if_false]
    exact ih fun a ha => h a (List.mem_cons_of_mem x ha)

/-- Helper: the event list of a cycle step over `x :: ts`. -/
theorem monitorCycle_cons (x : Target) (ts : List Target) (probed : String → Status) :
    (monitorCycle (x :: ts) probed).2 =
      if probed x.id = x.status then (monitorCycle ts probed).2
      else transitionEvent x (probed x.id) :: (monitorCycle ts probed).2 := by
  by_cases h : probed x.id = x.status <;> simp [monitorCycle, h]

/-- Helper: every event of a cycle is about one of the processed targets. -/
theorem monitorCycle_events_mem (probed : String → Status) :
    ∀ ts : List Target, ∀ ev ∈ (monitorCycle ts probed).2,
      ev.targetId ∈ ts.map Target.id := by
  intro ts
  induction ts with
  | nil => intro ev hev; simp [monitorCycle] at hev
  | cons x ts ih =>
    intro ev hev
    rw [monitorCycle_cons] at hev
    by_cases h : probed x.id = x.status
    · rw [if_pos h] at hev
      exact List.mem_cons_of_mem _ (ih ev hev)
    · rw [if_neg h] at hev
      rcases List.mem_cons.mp hev with rfl | hmem
      · simp [transitionEvent]
      · exact List.mem_cons_of_mem _ (ih ev hmem)

/-- Helper: the cycle's event list is the filter-then-map of the changed
targets. -/
theorem monitorCycle_events_eq (probed : String → Status) :
    ∀ ts : List Target,
      (monitorCycle ts probed).2 =
        (ts.filter fun t => decide (probed t.id ≠ t.status)).map
          (fun t => transitionEvent t (probed t.id)) := by
  intro ts
  induction ts with
  | nil => simp [monitorCycle]
  | cons x ts ih =>
    rw [monitorCycle_cons]
    by_cases h : probed x.id = x.status <;> simp [List.filter_cons, h, ih]

/-- Helper: per-target event count, under distinct target ids. -/
theorem monitorCycle_count (probed : String → Status) :
    ∀ ts : List Target, (ts.map Target.id).Nodup → ∀ t ∈ ts,
      ((monitorCycle ts probed).2.filter fun ev => decide (ev.targetId = t.id)).length =
        if probed t.id = t.status then 0 else 1 := by
  intro ts
  induction ts with
  | nil => intro _ t ht; cases ht
  | cons x ts ih =>
    intro hnd t ht
    have hnd' := hnd
    rw [List.map_cons, List.nodup_cons] at hnd'
    obtain ⟨hx, hndts⟩ := hnd'
    rw [monitorCycle_cons]
    have hrest_nil : ∀ tid : String, tid ∉ ts.map Target.id →
        ((monitorCycle ts probed).2.filter fun ev => decide (ev.targetId = tid)) = [] := by
      intro tid htid
      refine filter_eq_nil_of_none _ _ ?_
      intro ev hev
      have := monitorCycle_events_mem probed ts ev hev
      simp only [decide_eq_false_iff_not]
      intro heq
      exact htid (heq ▸ this)
    rcases List.mem_cons.mp ht with rfl | hts
    · by_cases h : probed t.id = t.status
      · rw [if_pos h, if_pos h, hrest_nil t.id hx]
        rfl
      · rw [if_neg h, if_neg h]
        have hhead : decide ((transitionEvent t (probed t.id)).targetId = t.id) = true := by
          simp [transitionEvent]
        simp only [List.filter_cons, hhead, if_true]
        rw [hrest_nil t.id hx]
        rfl
    · have htid : t.id ∈ ts.map Target.id := List.mem_map_of_mem Target.id hts
      have hne : x.id ≠ t.id := fun hEq => hx (hEq ▸ htid)
      by_cases h : probed x.id = x.status
      · rw [if_pos h]
        exact ih hndts t hts
      · rw [if_neg h]
        have hhead : decide ((transitionEvent x (probed x.id)).targetId = t.id) = false := by
          simp [transitionEvent, hne]
        simp only [List.filter_cons, hhead]
        simp only [Bool.false_eq_true, if_false]
        exact ih hndts t hts

/-- C1: on a single monitoring run over a registry with distinct target ids,
the appended Event list is exactly one Event per target whose probed status
differs from the stored status (in registry order); each transitioning
target gets exactly one Event and each unchanged target gets none; and a run
whose probes all agree with the stored statuses appends zero Events. -/
theorem monitor_cycle_one_event_per_transition (targets : List Target)
    (probed : String → Status) (hnodup : (targets.map Target.id).Nodup) :
    (monitorCycle targets probed).2 =
      (targets.filter fun t => decide (probed t.id ≠ t.status)).map
        (fun t => transitionEvent t (probed t.id)) ∧
    (∀ t ∈ targets,
      ((monitorCycle targets probed).2.filter
        fun ev => decide (ev.targetId = t.id)).length =
          if probed t.id = t.status then 0 else 1) ∧
    ((∀ t ∈ targets, probed t.id = t.status) → (monitorCycle targets probed).2 = []) := by
  refine ⟨monitorCycle_events_eq probed targets, monitorCycle_count probed targets hnodup, ?_⟩
  intro hall
  rw [monitorCycle_events_eq probed targets]
  have hfil : ∀ ts : List Target, (∀ t ∈ ts, probed t.id = t.status) →
      ts.filter (fun t => decide (probed t.id ≠ t.status)) = [] := by
    intro ts
    induction ts with
    | nil => intro _; rfl
    | cons x ts ih =>
      intro h
      have hx : decide (probed x.id ≠ x.status) = false := by
        simp [h x (List.mem_cons_self x ts)]
      rw [List.filter_cons, hx]
      simp only [Bool.false_eq_true, if_false]
      exact ih fun t ht => h t (List.mem_cons_of_mem x ht)
  rw [hfil targets hall]
  rfl

/-- C1 witness: a two-device registry where only `d1`'s probe differs from
its stored status — the cycle appends exactly one Event for `d1`. -/
theorem monitor_cycle_one_event_per_transition_witness :
    ((monitorCycle [⟨"d1", Status.up⟩, ⟨"d2", Status.up⟩]
        (fun i => if i = "d1" then Status.down else Status.up)).2.filter
      fun ev => decide (ev.targetId = "d1")).length = 1 := by
  have h := (monitor_cycle_one_event_per_transition
    [⟨"d1", Status.up⟩, ⟨"d2", Status.up⟩]
    (fun i => if i = "d1" then Status.down else Status.up)
    (by decide)).2.1 ⟨"d1", Status.up⟩ (List.mem_cons_self _ _)
  simpa using h

/-- Helper: a failing probe below the threshold only increments the
consecutive-failure counter. -/
theorem processProbe_below_threshold (t : MonTarget)
    (h : ¬ (t.threshold ≤ t.consecutiveFailures + 1 ∧ t.status ≠ Status.down)) :
    processProbe t false =
      ({ t with consecutiveFailures := t.consecutiveFailures + 1 }, []) := by
  simp [processProbe, h]

/-- Helper: a run of `k` failing probes with `k` below the remaining
threshold budget leaves the status untouched, appends no Event, and only
advances the counter. -/
theorem runProbes_replicate_false (k : Nat) :
    ∀ t : MonTarget, t.consecutiveFailures + k < t.threshold →
      runProbes t (List.replicate k false) =
        ({ t with consecutiveFailures := t.consecutiveFailures + k }, []) := by
  induction k with
  | zero =>
    intro t h
    obtain ⟨ip, st, th, cf⟩ := t
    simp [runProbes]
  | succ k ih =>
    intro t h
    obtain ⟨ip, st, th, cf⟩ := t
    simp only [MonTarget.consecutiveFailures, MonTarget.threshold] at h
    have step : processProbe ⟨ip, st, th, cf⟩ false = (⟨ip, st, th, cf + 1⟩, []) := by
      have hcond : ¬ (th ≤ cf + 1 ∧ st ≠ Status.down) := by
        rintro ⟨hle, -⟩
        omega
      simpa using processProbe_below_threshold ⟨ip, st, th, cf⟩ hcond
    have ihres := ih ⟨ip, st, th, cf + 1⟩ (by simp; omega)
    simp only [List.replicate_succ, runProbes, step, ihres]
    simp
    omega

/-- Helper: splitting a probe sequence. -/
theorem runProbes_append (xs ys : List Bool) :
    ∀ t : MonTarget,
      runProbes t (xs ++ ys) =
        ((runProbes (runProbes t xs).1 ys).1,
         (runProbes t xs).2 ++ (runProbes (runProbes t xs).1 ys).2) := by
  induction xs with
  | nil => intro t; simp [runProbes]
  | cons r rs ih =>
    intro t
    simp [runProbes, ih, List.append_assoc]

/-- C2: for a monitored target with threshold `N ≥ 1`, a clean counter and a
non-DOWN status: any run of fewer than `N` consecutive failing probes leaves
the status unchanged and appends no Event (a single dropped probe never
flips status); the run of exactly `N` consecutive failing probes transitions
the target DOWN with exactly one `DEVICE_DOWN` Event; and the first
successful probe on a DOWN target transitions it back UP. -/
theorem monitor_debounce_threshold (t : MonTarget)
    (hcf : t.consecutiveFailures = 0) (hstat : t.status ≠ Status.down)
    (hN : 1 ≤ t.threshold) :
    (∀ k < t.threshold,
      (runProbes t (List.replicate k false)).1.status = t.status ∧
      (runProbes t (List.replicate k false)).2 = []) ∧
    ((runProbes t (List.replicate t.threshold false)).1.status = Status.down ∧
     (runProbes t (List.replicate t.threshold false)).2 =
       [{ targetId := t.ip, eventType := "DEVICE_DOWN" }]) ∧
    (∀ s : MonTarget, s.status = Status.down →
      (processProbe s true).1.status = Status.up ∧
      (processProbe s true).2 = [{ targetId := s.ip, eventType := "DEVICE_UP" }]) := by
  refine ⟨?_, ?_, ?_⟩
  · intro k hk
    have hrun := runProbes_replicate_false k t (by omega)
    rw [hrun]
    exact ⟨rfl, rfl⟩
  · obtain ⟨ip, st, th, cf⟩ := t
    simp only [MonTarget.consecutiveFailures] at hcf
    simp only [MonTarget.status] at hstat
    simp only [MonTarget.threshold] at hN
    subst hcf
    have hrep : List.replicate th false =
        List.replicate (th - 1) false ++ [false] := by
      conv_lhs => rw [show th = (th - 1) + 1 by omega]
      rw [List.replicate_succ']
    have h1 := runProbes_replicate_false (th - 1) ⟨ip, st, th, 0⟩ (by simp; omega)
    rw [hrep, runProbes_append, h1]
    have hcond : th ≤ th - 1 + 1 ∧ st ≠ Status.down := ⟨by omega, hstat⟩
    have hfin : processProbe ⟨ip, st, th, th - 1⟩ false =
        (⟨ip, Status.down, th, th - 1 + 1⟩,
         [{ targetId := ip, eventType := "DEVICE_DOWN" }]) := by
      simp only [processProbe, Bool.false_eq_true, if_false]
      rw [if_pos hcond]
    refine ⟨?_, ?_⟩ <;> simp [runProbes, hfin]
  · intro s hs
    exact ⟨by simp [processProbe, hs], by simp [processProbe, hs]⟩

/-- C2 witness: the spec's own example — device `10.0.0.5` with threshold 3
and probe results `[fail, fail, fail]` ends DOWN with exactly one
`DEVICE_DOWN` Event. -/
theorem monitor_debounce_threshold_witness :
    (runProbes ⟨"10.0.0.5", Status.up, 3, 0⟩ (List.replicate 3 false)).1.status =
      Status.down ∧
    (runProbes ⟨"10.0.0.5", Status.up, 3, 0⟩ (List.replicate 3 false)).2 =
      [{ targetId := "10.0.0.5", eventType := "DEVICE_DOWN" }] :=
  (monitor_debounce_threshold ⟨"10.0.0.5", Status.up, 3, 0⟩ rfl
    (by decide) (by decide)).2.1

/-- Helper: one unexpected close from a non-manual state below the cap
increments the attempt counter, moves to `RECONNECTING`, and schedules one
connect after the exponential delay. -/
theorem onClose_below_cap (a : Nat) (st : WebsocketService.ConnectionStatus)
    (h : a < WebsocketService.maxReconnectAttempts) :
    WebsocketService.onClose ⟨a, st, false⟩ =
      (⟨a + 1, .reconnecting, false⟩, some (WebsocketService.reconnectDelay (a + 1))) := by
  simp [WebsocketService.onClose, WebsocketService.reconnect, Nat.not_le.mpr h]

/-- Helper: one unexpected close at the cap sets `ERROR` and schedules no
connect. -/
theorem onClose_at_cap (a : Nat) (st : WebsocketService.ConnectionStatus)
    (h : WebsocketService.maxReconnectAttempts ≤ a) :
    WebsocketService.onClose ⟨a, st, false⟩ = (⟨a, .error, false⟩, none) := by
  simp [WebsocketService.onClose, WebsocketService.reconnect, h]

/-- Helper: closed form of a run of `k` successive unexpected failures from
attempt counter `a ≤ cap`: the counter saturates at the cap, the status is
`RECONNECTING` while attempts remain and `ERROR` once the cap is exceeded,
and the scheduled delays are exactly the exponential-backoff values of
attempts `a+1, a+2, …` up to the cap. -/
theorem runFailures_spec (k : Nat) :
    ∀ (a : Nat) (st : WebsocketService.ConnectionStatus),
      a ≤ WebsocketService.maxReconnectAttempts →
      WebsocketService.runFailures ⟨a, st, false⟩ k =
        (⟨min (a + k) WebsocketService.maxReconnectAttempts,
          (if k = 0 then st
           else if a + k ≤ WebsocketService.maxReconnectAttempts then .reconnecting
           else .error),
          false⟩,
         (List.range (min k (WebsocketService.maxReconnectAttempts - a))).map
           (fun i => WebsocketService.reconnectDelay (a + 1 + i))) := by
  induction k with
  | zero =>
    intro a st ha
    have h1 : min (a + 0) WebsocketService.maxReconnectAttempts = a := by omega
    have h2 : min 0 (WebsocketService.maxReconnectAttempts - a) = 0 := by omega
    simp only [WebsocketService.runFailures, h1, h2, List.range_zero, List.map_nil]
    simp
  | succ k ih =>
    intro a st ha
    by_cases hcap : WebsocketService.maxReconnectAttempts ≤ a
    · simp only [WebsocketService.runFailures, onClose_at_cap a st hcap]
      rw [ih a .error ha]
      have h1 : min (a + k) WebsocketService.maxReconnectAttempts = a := by omega
      have h2 : min k (WebsocketService.maxReconnectAttempts - a) = 0 := by omega
      have h3 : min (a + (k + 1)) WebsocketService.maxReconnectAttempts = a := by omega
      have h4 : min (k + 1) (WebsocketService.maxReconnectAttempts - a) = 0 := by omega
      have h5 : (if k = 0 then WebsocketService.ConnectionStatus.error
          else if a + k ≤ WebsocketService.maxReconnectAttempts then
            WebsocketService.ConnectionStatus.reconnecting
          else WebsocketService.ConnectionStatus.error) =
            WebsocketService.ConnectionStatus.error := by
        rcases Nat.eq_zero_or_pos k with hk | hk
        · simp [hk]
        · rw [if_neg (by omega), if_neg (by omega)]
      have h6 : (if k + 1 = 0 then st
          else if a + (k + 1) ≤ WebsocketService.maxReconnectAttempts then
            WebsocketService.ConnectionStatus.reconnecting
          else WebsocketService.ConnectionStatus.error) =
            WebsocketService.ConnectionStatus.error := by
        rw [if_neg (by omega), if_neg (by omega)]
      simp [h1, h2, h3, h4, h5, h6]
      rw [if_neg (by omega)]
    · have hlt : a < WebsocketService.maxReconnectAttempts := Nat.lt_of_not_le hcap
      simp only [WebsocketService.runFailures, onClose_below_cap a st hlt]
      rw [ih (a + 1) .reconnecting (by omega)]
      have hattempts : min (a + 1 + k) WebsocketService.maxReconnectAttempts =
          min (a + (k + 1)) WebsocketService.maxReconnectAttempts := by omega
      have hstatus : (if k = 0 then WebsocketService.ConnectionStatus.reconnecting
          else if a + 1 + k ≤ WebsocketService.maxReconnectAttempts then
            WebsocketService.ConnectionStatus.reconnecting
          else WebsocketService.ConnectionStatus.error) =
            (if k + 1 = 0 then st
             else if a + (k + 1) ≤ WebsocketService.maxReconnectAttempts then
               WebsocketService.ConnectionStatus.reconnecting
             else WebsocketService.ConnectionStatus.error) := by
        rw [if_neg (Nat.succ_ne_zero k)]
        rcases Nat.eq_zero_or_pos k with hk | hk
        · subst hk
          rw [if_pos rfl, if_pos (by omega)]
        · rcases Nat.lt_or_ge (a + 1 + k) (WebsocketService.maxReconnectAttempts + 1)
            with hle | hgt
          · rw [if_neg (by omega), if_pos (by omega), if_pos (by omega)]
          · rw [if_neg (by omega), if_neg (by omega), if_neg (by omega)]
      have hdelays : (some (WebsocketService.reconnectDelay (a + 1))).toList ++
            (List.range (min k (WebsocketService.maxReconnectAttempts - (a + 1)))).map
              (fun i => WebsocketService.reconnectDelay (a + 1 + 1 + i)) =
          (List.range (min (k + 1) (WebsocketService.maxReconnectAttempts - a))).map
            (fun i => WebsocketService.reconnectDelay (a + 1 + i)) := by
        have hmin : min (k + 1) (WebsocketService.maxReconnectAttempts - a) =
            (min k (WebsocketService.maxReconnectAttempts - (a + 1))) + 1 := by omega
        rw [hmin, List.range_succ_eq_map, List.map_cons, List.map_map]
        simp only [Option.toList_some, List.cons_append, List.nil_append]
        refine congrArg₂ List.cons (by simp) ?_
        refine List.map_congr_left ?_
        intro i _
        simp only [Function.comp_apply]
        congr 1
        omega
      rw [hattempts, hstatus, hdelays]

/-- C7 (amended): after an unexpected disconnection the push client performs
at most `maxReconnectAttempts` reconnection attempts — after `k` successive
failures the scheduled attempts are exactly the first `min k
maxReconnectAttempts` ones; each attempt `n` is delayed by the exponentially
growing `reconnectInterval * 1.5^(n-1)` (deterministic, without jitter);
while attempts remain the state is `RECONNECTING`, and once the bound is
exceeded the state becomes `ERROR` and no further connection attempt is
initiated. -/
theorem websocket_reconnect_bounded (k : Nat) :
    (WebsocketService.runFailures WebsocketService.connectedState k).2 =
      (List.range (min k WebsocketService.maxReconnectAttempts)).map
        (fun i => WebsocketService.reconnectDelay (i + 1)) ∧
    (WebsocketService.runFailures WebsocketService.connectedState k).2.length ≤
      WebsocketService.maxReconnectAttempts ∧
    (WebsocketService.runFailures WebsocketService.connectedState k).1.status =
      (if k = 0 then WebsocketService.ConnectionStatus.connected
       else if k ≤ WebsocketService.maxReconnectAttempts then
         WebsocketService.ConnectionStatus.reconnecting
       else WebsocketService.ConnectionStatus.error) ∧
    (∀ n : Nat, WebsocketService.reconnectDelay (n + 1) =
      WebsocketService.reconnectInterval * (3 / 2) ^ n) := by
  have hspec := runFailures_spec k 0 .connected (Nat.zero_le _)
  have hdel : (WebsocketService.runFailures WebsocketService.connectedState k).2 =
      (List.range (min k WebsocketService.maxReconnectAttempts)).map
        (fun i => WebsocketService.reconnectDelay (i + 1)) := by
    rw [show WebsocketService.connectedState =
        (⟨0, .connected, false⟩ : WebsocketService.WSState) from rfl, hspec]
    simp only [Nat.sub_zero]
    refine List.map_congr_left ?_
    intro i _
    congr 1
    omega
  refine ⟨hdel, ?_, ?_, ?_⟩
  · rw [hdel]
    simp only [List.length_map, List.length_range]
    omega
  · rw [show WebsocketService.connectedState =
        (⟨0, .connected, false⟩ : WebsocketService.WSState) from rfl, hspec]
    simp only [Nat.zero_add]
  · intro n
    simp [WebsocketService.reconnectDelay]

/-- C7 counterexample: the reconnection delays of the source carry no jitter
— they are the exact deterministic values `5000 · 1.5^(n-1)` on every run
(first three attempts: 5000 ms, 7500 ms, 11250 ms, with no random
perturbation), refuting the claim that each attempt is delayed by an
exponential backoff *with jitter*. -/
theorem websocket_no_jitter :
    WebsocketService.reconnectDelay 1 = 5000 ∧
    WebsocketService.reconnectDelay 2 = 7500 ∧
    WebsocketService.reconnectDelay 3 = 11250 ∧
    (WebsocketService.runFailures WebsocketService.connectedState 3).2 =
      [5000, 7500, 11250] := by
  refine ⟨?_, ?_, ?_, ?_⟩
  · norm_num [WebsocketService.reconnectDelay, WebsocketService.reconnectInterval]
  · norm_num [WebsocketService.reconnectDelay, WebsocketService.reconnectInterval]
  · norm_num [WebsocketService.reconnectDelay, WebsocketService.reconnectInterval]
  · have h := runFailures_spec 3 0 .connected (by norm_num [WebsocketService.maxReconnectAttempts])
    rw [show WebsocketService.connectedState =
        (⟨0, .connected, false⟩ : WebsocketService.WSState) from rfl, h]
    norm_num [WebsocketService.maxReconnectAttempts, WebsocketService.reconnectDelay,
      WebsocketService.reconnectInterval, List.range_succ]
